import Mathlib

/-!
Verification of the Paynexus MCP gateway against its specification.

Part 1 embeds the webhook signature layer: `WebhookManager.verifySignature`
computes HMAC-SHA256 of the payload under the secret, hex-renders it, decodes
both the expected and the claimed signature with Node's `Buffer.from(·, 'hex')`
semantics (truncation at the first invalid character, trailing odd nibble
dropped, case-insensitive digits), rejects on length mismatch, and otherwise
compares byte-for-byte (`crypto.timingSafeEqual`; the timing aspect itself is
outside this model, only the compared value is modelled).

Part 2 embeds the dual-mode HTTP service: the in-memory demo session registry,
the legacy production credential slot, and every route handler, with the
backend, UUID draws and timestamps passed in explicitly as parameters.
-/

set_option maxRecDepth 100000

namespace Paynexus

/-! ### SHA-256 over byte lists (bytes as `Nat < 256`, words as `Nat < 2^32`) -/

def M32 : Nat := 4294967296

/-- Right rotation of a 32-bit word. -/
def rot32 (n x : Nat) : Nat := ((x >>> n) ||| (x <<< (32 - n))) % M32

def sigB0 (x : Nat) : Nat := (rot32 2 x) ^^^ (rot32 13 x) ^^^ (rot32 22 x)

def sigB1 (x : Nat) : Nat := (rot32 6 x) ^^^ (rot32 11 x) ^^^ (rot32 25 x)

def sigS0 (x : Nat) : Nat := (rot32 7 x) ^^^ (rot32 18 x) ^^^ (x >>> 3)

def sigS1 (x : Nat) : Nat := (rot32 17 x) ^^^ (rot32 19 x) ^^^ (x >>> 10)

def chFn (x y z : Nat) : Nat := (x &&& y) ^^^ ((x ^^^ 0xFFFFFFFF) &&& z)

def majFn (x y z : Nat) : Nat := (x &&& y) ^^^ (x &&& z) ^^^ (y &&& z)

/-- The 64 round constants of FIPS 180-4, in decimal. -/
def K : List Nat :=
  [1116352408, 1899447441, 3049323471, 3921009573, 961987163, 1508970993,
   2453635748, 2870763221, 3624381080, 310598401, 607225278, 1426881987,
   1925078388, 2162078206, 2614888103, 3248222580, 3835390401, 4022224774,
   264347078, 604807628, 770255983, 1249150122, 1555081692, 1996064986,
   2554220882, 2821834349, 2952996808, 3210313671, 3336571891, 3584528711,
   113926993, 338241895, 666307205, 773529912, 1294757372, 1396182291,
   1695183700, 1986661051, 2177026350, 2456956037, 2730485921, 2820302411,
   3259730800, 3345764771, 3516065817, 3600352804, 4094571909, 275423344,
   430227734, 506948616, 659060556, 883997877, 958139571, 1322822218,
   1537002063, 1747873779, 1955562222, 2024104815, 2227730452, 2361852424,
   2428436474, 2756734187, 3204031479, 3329325298]

/-- The eight working variables of the compression function. -/
structure Hash8 where
  a : Nat
  b : Nat
  c : Nat
  d : Nat
  e : Nat
  f : Nat
  g : Nat
  h : Nat

/-- The initial hash value of FIPS 180-4, in decimal. -/
def H0 : Hash8 :=
  { a := 1779033703, b := 3144134277, c := 1013904242, d := 2773480762,
    e := 1359893119, f := 2600822924, g := 528734635, h := 1541459225 }

def be32 (w : Nat) : List Nat :=
  [(w >>> 24) % 256, (w >>> 16) % 256, (w >>> 8) % 256, w % 256]

def be64 (n : Nat) : List Nat :=
  [(n >>> 56) % 256, (n >>> 48) % 256, (n >>> 40) % 256, (n >>> 32) % 256,
   (n >>> 24) % 256, (n >>> 16) % 256, (n >>> 8) % 256, n % 256]

/-- SHA-256 padding: `0x80`, zeros, then the 64-bit big-endian bit length. -/
def padMessage (msg : List Nat) : List Nat :=
  msg ++ [0x80] ++ List.replicate ((119 - msg.length % 64) % 64) 0 ++ be64 (msg.length * 8)

def bytesToWords : List Nat → List Nat
  | a :: b :: c :: d :: rest => (a * 16777216 + b * 65536 + c * 256 + d) :: bytesToWords rest
  | _ => []

def scheduleStep (w : List Nat) : List Nat :=
  let i := w.length
  w ++ [(sigS1 (w.getD (i - 2) 0) + w.getD (i - 7) 0 + sigS0 (w.getD (i - 15) 0) + w.getD (i - 16) 0) % M32]

def buildSchedule (w : List Nat) : Nat → List Nat
  | 0 => w
  | n + 1 => buildSchedule (scheduleStep w) n

def compressStep (s : Hash8) (kw : Nat × Nat) : Hash8 :=
  let t1 := (s.h + sigB1 s.e + chFn s.e s.f s.g + kw.1 + kw.2) % M32
  let t2 := (sigB0 s.a + majFn s.a s.b s.c) % M32
  { a := (t1 + t2) % M32, b := s.a, c := s.b, d := s.c,
    e := (s.d + t1) % M32, f := s.e, g := s.f, h := s.g }

def compressBlock (hh : Hash8) (block : List Nat) : Hash8 :=
  let w := buildSchedule (bytesToWords block) 48
  let s := (K.zip w).foldl compressStep hh
  { a := (hh.a + s.a) % M32, b := (hh.b + s.b) % M32, c := (hh.c + s.c) % M32,
    d := (hh.d + s.d) % M32, e := (hh.e + s.e) % M32, f := (hh.f + s.f) % M32,
    g := (hh.g + s.g) % M32, h := (hh.h + s.h) % M32 }

def chunks64Fuel : Nat → List Nat → List (List Nat)
  | 0, _ => []
  | _, [] => []
  | fuel + 1, l => l.take 64 :: chunks64Fuel fuel (l.drop 64)

/-- Split into 64-byte blocks.  Each step consumes at least one element, so
`l.length` steps of fuel always suffice. -/
def chunks64 (l : List Nat) : List (List Nat) := chunks64Fuel l.length l

def sha256Words (msg : List Nat) : Hash8 :=
  (chunks64 (padMessage msg)).foldl compressBlock H0

def hashBytes (s : Hash8) : List Nat :=
  ([s.a, s.b, s.c, s.d, s.e, s.f, s.g, s.h].map be32).flatten

def sha256 (msg : List Nat) : List Nat := hashBytes (sha256Words msg)

/-- HMAC-SHA256, block size 64, as performed by Node `createHmac('sha256', key)`. -/
def hmacSha256 (key msg : List Nat) : List Nat :=
  let k0 := if key.length > 64 then sha256 key else key
  let k := k0 ++ List.replicate (64 - k0.length) 0
  let ipad := k.map (fun b => b ^^^ 0x36)
  let opad := k.map (fun b => b ^^^ 0x5c)
  sha256 (opad ++ sha256 (ipad ++ msg))

/-! ### Strings as UTF-8 bytes, hex encode/decode with Node `Buffer` semantics -/

def utf8EncodeCharNat (n : Nat) : List Nat :=
  if n < 0x80 then [n]
  else if n < 0x800 then [0xC0 ||| (n >>> 6), 0x80 ||| (n &&& 0x3F)]
  else if n < 0x10000 then
    [0xE0 ||| (n >>> 12), 0x80 ||| ((n >>> 6) &&& 0x3F), 0x80 ||| (n &&& 0x3F)]
  else
    [0xF0 ||| (n >>> 18), 0x80 ||| ((n >>> 12) &&& 0x3F),
     0x80 ||| ((n >>> 6) &&& 0x3F), 0x80 ||| (n &&& 0x3F)]

def strBytes (s : String) : List Nat :=
  (s.data.map (fun c => utf8EncodeCharNat c.toNat)).flatten

def hexDigitChar (n : Nat) : Char :=
  if n < 10 then Char.ofNat (48 + n) else Char.ofNat (87 + n)

/-- Lowercase hex rendering, as produced by Node `.digest('hex')`. -/
def hexEncode (bs : List Nat) : String :=
  ⟨(bs.map (fun b => [hexDigitChar (b / 16), hexDigitChar (b % 16)])).flatten⟩

/-- Value of a hex digit; Node accepts both cases. -/
def hexVal (c : Char) : Option Nat :=
  if '0' ≤ c ∧ c ≤ '9' then some (c.toNat - 48)
  else if 'a' ≤ c ∧ c ≤ 'f' then some (c.toNat - 87)
  else if 'A' ≤ c ∧ c ≤ 'F' then some (c.toNat - 55)
  else none

/-- Node `Buffer.from(string, 'hex')`: decode pairs of hex digits, stopping at
the first pair containing an invalid character; a trailing odd character is
dropped.  Never throws. -/
def hexDecodeAux : List Char → List Nat
  | c1 :: c2 :: rest =>
    match hexVal c1, hexVal c2 with
    | some v1, some v2 => (16 * v1 + v2) :: hexDecodeAux rest
    | _, _ => []
  | _ => []

def hexDecode (s : String) : List Nat := hexDecodeAux s.data

/-- `crypto.timingSafeEqual` on two equal-length buffers: the compared value is
plain byte equality (the constant-time aspect is outside a functional model). -/
def timingSafeEqual (a b : List Nat) : Bool := a == b

/-- `WebhookManager.verifySignature(payload, signature, secret)`:
HMAC-SHA256 the payload under the secret, hex-render, decode both sides,
reject on differing decoded lengths, else constant-time byte compare.
The surrounding `try/catch` returns false on any exception; every operation
in this model is total, so the catch branch is unreachable. -/
def verifySignature (payload signature secret : String) : Bool :=
  let expectedSignature := hexEncode (hmacSha256 (strBytes secret) (strBytes payload))
  let expectedBuffer := hexDecode expectedSignature
  let signatureBuffer := hexDecode signature
  if expectedBuffer.length != signatureBuffer.length then false
  else timingSafeEqual expectedBuffer signatureBuffer

/-- A well-formed hex string: even length, all characters hex digits.
Anything else is malformed hex. -/
def validHexString (s : String) : Bool :=
  s.data.all (fun c => (hexVal c).isSome) && s.length % 2 == 0

/-! ### JSON values and HTTP responses -/

/-- JSON values, as carried in request and response bodies. -/
inductive Json where
  | null : Json
  | bool : Bool → Json
  | num : Int → Json
  | str : String → Json
  | arr : List Json → Json
  | obj : List (String × Json) → Json

def lookupField : List (String × Json) → String → Option Json
  | [], _ => none
  | (k2, v) :: rest, k => if k2 = k then some v else lookupField rest k

/-- Property access `j.k` on a JSON value (`undefined` is `none`). -/
def Json.getField : Json → String → Option Json
  | .obj fs, k => lookupField fs k
  | _, _ => none

/-- `if (data?.k)` followed by reading `data.k` as the new credential:
the update fires only when the field is present and JS-truthy.  The key
fields of the backend responses are string-typed, so truthiness here is
"non-empty string". -/
def strField (j : Json) (k : String) : Option String :=
  match j.getField k with
  | some (.str s) => if s = "" then none else some s
  | _ => none

/-- An HTTP response: status code and JSON body (`res.status(..).json(..)`;
a bare `res.json(..)` is status 200). -/
structure Response where
  status : Nat
  body : Json

/-! ### Server state -/

structure DemoCheckout where
  id : String
  amount : Int
  currency : String
  status : String
  createdAt : String

structure DemoWebhook where
  id : String
  url : String
  events : List String
  createdAt : String

structure DemoSession where
  token : String
  email : String
  apiKey : Option String
  checkouts : List DemoCheckout
  webhooks : List DemoWebhook
  createdAt : String

/-- Legacy single-tenant state, used only in production mode. -/
structure ProdState where
  jwt : Option String
  apiKey : Option String

/-- The whole in-memory state: `demoSessions` (a `Map` keyed by session
token, modelled as an insertion-ordered association list without duplicate
keys) plus the production credential slot. -/
structure ServerState where
  demoSessions : List (String × DemoSession)
  prodState : ProdState

/-- `Map.get` — first (and, for a JS `Map`, only) binding of the key. -/
def mapGet : List (String × DemoSession) → String → Option DemoSession
  | [], _ => none
  | (k2, v) :: rest, k => if k2 = k then some v else mapGet rest k

def mapHas : List (String × DemoSession) → String → Bool
  | [], _ => false
  | (k2, _) :: rest, k => k2 = k || mapHas rest k

/-- `Map.set` — overwrite an existing binding in place, else append. -/
def mapSet (m : List (String × DemoSession)) (k : String) (v : DemoSession) :
    List (String × DemoSession) :=
  if mapHas m k then m.map (fun p => if p.1 = k then (k, v) else p) else m ++ [(k, v)]

/-- In-place mutation of the session object stored under `k` (the JS code
mutates the object returned by `Map.get`). -/
def mapUpdate (m : List (String × DemoSession)) (k : String)
    (f : DemoSession → DemoSession) : List (String × DemoSession) :=
  m.map (fun p => if p.1 = k then (p.1, f p.2) else p)

/-! ### Requests, helpers -/

/-- An inbound request's relevant parts: the `Authorization` header. -/
structure Request where
  authorization : Option String

def listPre : List Char → List Char → Bool
  | [], _ => true
  | _ :: _, [] => false
  | p :: ps, c :: cs => p == c && listPre ps cs

/-- `s.slice(0, n)` on a JS string. -/
def strTake (s : String) (n : Nat) : String := ⟨s.data.take n⟩

/-- `extractBearer`: the header must start with `"Bearer "`; the rest is the
token (`auth.slice(7)`). -/
def extractBearer (req : Request) : Option String :=
  match req.authorization with
  | some auth => if listPre "Bearer ".data auth.data then some ⟨auth.data.drop 7⟩ else none
  | none => none

/-- The nullish-coalescing operator `a ?? b` on optional strings. -/
def jsOr (a b : Option String) : Option String :=
  match a with
  | some x => some x
  | none => b

/-- JS falsiness `!x` of an optional string (`null`/`undefined` or `''`). -/
def strFalsy : Option String → Bool
  | none => true
  | some s => s = ""

/-- `randomUUID().replace(..., '')` — the UUID with its dashes removed. -/
def uuidHex (u : String) : String := ⟨u.data.filter (fun c => c != '-')⟩

/-- `s.toLowerCase()` (ASCII range; the strings in play are ASCII). -/
def jsToLower (s : String) : String := ⟨s.data.map Char.toLower⟩

/-! ### Backend caller -/

/-- An `AxiosError`: optionally a response (status and parsed JSON body —
`respStatus`/`respData` are `none` when the transport failed or the body was
absent), plus the error message. -/
structure AxiosErr where
  respStatus : Option Nat
  respData : Option Json
  message : String

/-- Result of `backendPost`: the parsed response body, or an `AxiosError`.
(The handlers' catch blocks only ever see `AxiosError`s from `axios.post`,
so the non-Axios 500 branch of `sendError` is unreachable in this model.) -/
inductive BResult where
  | ok : Json → BResult
  | err : AxiosErr → BResult

/-- The remote backend, as a function of path, bearer token and body. -/
def Backend := String → Option String → Json → BResult

/-- One outbound call as issued by `backendPost` (path, bearer, body). -/
structure BackendCall where
  path : String
  token : Option String
  body : Json

/-- `sendError(res, err)` for an `AxiosError`:
`res.status(err.response?.status ?? 502).json(err.response?.data ?? { error: err.message })`. -/
def sendError (e : AxiosErr) : Response :=
  { status := e.respStatus.getD 502
    body := e.respData.getD (Json.obj [("error", Json.str e.message)]) }

/-- What a handler produced: the response, the state afterwards, and the
trace of backend calls it made, in order. -/
structure HandlerOut where
  resp : Response
  state : ServerState
  calls : List BackendCall

/-! ### Session resolution -/

/-- `getDemoSession` + `requireDemoSession`, returning the bearer token
together with the session it resolves to (the token is the registry key the
handler's in-place mutation lands on). -/
def requireDemoSession (st : ServerState) (req : Request) : Option (String × DemoSession) :=
  match extractBearer req with
  | none => none
  | some t =>
    match mapGet st.demoSessions t with
    | none => none
    | some s => some (t, s)

/-- The 401 body `requireDemoSession` sends when no session resolves. -/
def unauthorizedBody : Json :=
  Json.obj [
    ("error", Json.str "Unauthorized — no valid demo session."),
    ("hint", Json.str "Call POST /auth/login first, then pass the token as Authorization: Bearer <token>."),
    ("mode", Json.str "sandbox")]

def unauthorized (st : ServerState) : HandlerOut :=
  { resp := { status := 401, body := unauthorizedBody }, state := st, calls := [] }

/-! ### Route handlers.  Each takes the resolved mode flag `isSandbox`
(fixed at startup), the current state, the request, the parsed body, the
nondeterministic inputs the runtime supplies (`randomUUID()` draws,
timestamps) and the backend, and returns a `HandlerOut`. -/

/-- The empty session `login` creates: apiKey `null`, no checkouts, no
webhooks. -/
def newSession (token email now : String) : DemoSession :=
  { token := token, email := email, apiKey := none, checkouts := [],
    webhooks := [], createdAt := now }

/-- `session.apiKey = key` — the in-place key overwrite. -/
def setKey (k : String) : DemoSession → DemoSession :=
  fun s => { s with apiKey := some k }

/-- `session.checkouts.push(c)`. -/
def addCheckout (c : DemoCheckout) : DemoSession → DemoSession :=
  fun s => { s with checkouts := s.checkouts ++ [c] }

/-- `session.webhooks.push(w)`. -/
def addWebhook (w : DemoWebhook) : DemoSession → DemoSession :=
  fun s => { s with webhooks := s.webhooks ++ [w] }

structure LoginBody where
  email : Option String
  password : Option String

def loginNotFoundBody : Json :=
  Json.obj [
    ("error", Json.str "/auth/login is only available in sandbox mode."),
    ("hint", Json.str "Use POST /auth/forward with a real Supabase JWT in production.")]

/-- `POST /auth/login`. -/
def postAuthLogin (isSandbox : Bool) (st : ServerState) (body : LoginBody)
    (token now : String) : HandlerOut :=
  if !isSandbox then
    { resp := { status := 404, body := loginNotFoundBody }, state := st, calls := [] }
  else if strFalsy body.email then
    { resp := { status := 400, body := Json.obj [("error", Json.str "Provide email in request body.")] }
      state := st, calls := [] }
  else
    let email := body.email.getD ""
    let session : DemoSession := newSession token email now
    { resp := { status := 200, body := Json.obj [
        ("ok", Json.bool true),
        ("token", Json.str token),
        ("email", Json.str email),
        ("mode", Json.str "sandbox"),
        ("message", Json.str "Demo session created. Pass token as: Authorization: Bearer <token>"),
        ("warning", Json.str "Sandbox session only. No real authentication occurred.")] }
      state := { st with demoSessions := mapSet st.demoSessions token session }
      calls := [] }

structure ForwardBody where
  jwt : Option String

/-- `POST /auth/forward`. -/
def postAuthForward (isSandbox : Bool) (st : ServerState) (req : Request)
    (body : ForwardBody) : HandlerOut :=
  let token := jsOr body.jwt (extractBearer req)
  if strFalsy token then
    { resp := { status := 400, body := Json.obj [
        ("error", Json.str (if isSandbox then
          "Provide jwt in body. In sandbox mode, prefer POST /auth/login instead."
        else
          "Provide jwt in body or Authorization: Bearer <token>"))] }
      state := st, calls := [] }
  else
    { resp := { status := 200, body := Json.obj [
        ("ok", Json.bool true),
        ("mode", Json.str (if isSandbox then "sandbox" else "production")),
        ("message", Json.str (if isSandbox then
          "JWT stored in legacy state. For the full demo flow, use POST /auth/login."
        else
          "JWT stored. Call POST /api-keys/create next."))] }
      state := { st with prodState := { st.prodState with jwt := some (token.getD "") } }
      calls := [] }

structure CreateBody where
  tag : Option String
  org_id : Option String
  env : Option String
  scopes : Option Json

/-- The v1 issuance body (a `scopes: undefined` field is dropped by JSON
serialization, hence the optional field). -/
def v1CreateBody (body : CreateBody) : Json :=
  Json.obj ([
    ("org_id", Json.str (body.org_id.getD "demo-org")),
    ("tag", Json.str (body.tag.getD "ai-agent")),
    ("env", Json.str (body.env.getD "sandbox"))] ++
    (match body.scopes with | some s => [("scopes", s)] | none => []))

def legacyCreateBody (body : CreateBody) : Json :=
  Json.obj [("tag", Json.str (body.tag.getD "ai-agent"))]

/-- `POST /api-keys/create`. -/
def postApiKeysCreate (isSandbox : Bool) (st : ServerState) (req : Request)
    (body : CreateBody) (u : String) (backend : Backend) : HandlerOut :=
  if isSandbox then
    match requireDemoSession st req with
    | none => unauthorized st
    | some (t, session) =>
      let key := "pk_demo_" ++ uuidHex u
      { resp := { status := 200, body := Json.obj [
          ("ok", Json.bool true),
          ("key", Json.str key),
          ("mode", Json.str "sandbox"),
          ("session", Json.str session.email),
          ("warning", Json.str "Demo API key — stored in memory only. Not valid for real transactions.")] }
        state := { st with demoSessions := mapUpdate st.demoSessions t (setKey key) }
        calls := [] }
  else
    let token := jsOr (extractBearer req) st.prodState.jwt
    let v1Body := v1CreateBody body
    match backend "/v1/api-keys/create" token v1Body with
    | .ok data =>
      { resp := { status := 200, body := data }
        state := { st with prodState := { st.prodState with
          apiKey := jsOr (strField data "raw_key") st.prodState.apiKey } }
        calls := [{ path := "/v1/api-keys/create", token := token, body := v1Body }] }
    | .err _ =>
      match backend "/api/keys/create" none (legacyCreateBody body) with
      | .ok data2 =>
        { resp := { status := 200, body := data2 }
          state := { st with prodState := { st.prodState with
            apiKey := jsOr (strField data2 "key") st.prodState.apiKey } }
          calls := [{ path := "/v1/api-keys/create", token := token, body := v1Body },
                    { path := "/api/keys/create", token := none, body := legacyCreateBody body }] }
      | .err e2 =>
        { resp := sendError e2, state := st
          calls := [{ path := "/v1/api-keys/create", token := token, body := v1Body },
                    { path := "/api/keys/create", token := none, body := legacyCreateBody body }] }

/-- `oldKey ? oldKey.slice(0,15) + '...' : null` (also used for the session
snapshot's truncated key display). -/
def truncatedKey (k : Option String) : Json :=
  match k with
  | some s => if s = "" then Json.null else Json.str (strTake s 15 ++ "...")
  | none => Json.null

/-- `POST /api-keys/rotate`. -/
def postApiKeysRotate (isSandbox : Bool) (st : ServerState) (req : Request)
    (rawBody : Json) (u : String) (backend : Backend) : HandlerOut :=
  if isSandbox then
    match requireDemoSession st req with
    | none => unauthorized st
    | some (t, session) =>
      let oldKey := session.apiKey
      let newKey := "pk_demo_" ++ uuidHex u
      { resp := { status := 200, body := Json.obj [
          ("ok", Json.bool true),
          ("key", Json.str newKey),
          ("rotated", Json.bool true),
          ("old_key", truncatedKey oldKey),
          ("mode", Json.str "sandbox"),
          ("warning", Json.str "Demo key rotation. No real keys were affected.")] }
        state := { st with demoSessions := mapUpdate st.demoSessions t (setKey newKey) }
        calls := [] }
  else
    let token := jsOr (extractBearer req) st.prodState.apiKey
    match backend "/v1/api-keys/rotate" token rawBody with
    | .ok data =>
      { resp := { status := 200, body := data }
        state := { st with prodState := { st.prodState with
          apiKey := jsOr (strField data "raw_key") st.prodState.apiKey } }
        calls := [{ path := "/v1/api-keys/rotate", token := token, body := rawBody }] }
    | .err e =>
      { resp := sendError e, state := st
        calls := [{ path := "/v1/api-keys/rotate", token := token, body := rawBody }] }

structure CheckoutBody where
  amount : Option Int
  currency : Option String
  metadata : Option Json

/-- `{ amount: 4900, currency: 'usd', ...req.body }` for the production
proxy path (fields of the model body, with defaults overridden by spread). -/
def prodCheckoutBody (body : CheckoutBody) : Json :=
  Json.obj ([
    ("amount", Json.num (body.amount.getD 4900)),
    ("currency", Json.str (body.currency.getD "usd"))] ++
    (match body.metadata with | some m => [("metadata", m)] | none => []))

/-- `POST /checkout/demo`.  `u1` is the UUID drawn for the checkout id, `u2`
the one for the payment URL; `now`/`expiresAt` are the two timestamps. -/
def postCheckoutDemo (isSandbox : Bool) (st : ServerState) (req : Request)
    (body : CheckoutBody) (u1 u2 now expiresAt : String) (backend : Backend) : HandlerOut :=
  if isSandbox then
    match requireDemoSession st req with
    | none => unauthorized st
    | some (t, session) =>
      let amount := body.amount.getD 4900
      let currency := jsToLower (body.currency.getD "usd")
      let checkoutId := "cs_demo_" ++ uuidHex u1
      { resp := { status := 200, body := Json.obj [
          ("id", Json.str checkoutId),
          ("object", Json.str "checkout_session"),
          ("amount", Json.num amount),
          ("currency", Json.str currency),
          ("status", Json.str "pending"),
          ("created_at", Json.str now),
          ("expires_at", Json.str expiresAt),
          ("merchant", Json.str session.email),
          ("api_key", truncatedKey session.apiKey),
          ("payment_url", Json.str ("https://checkout.paynexus.demo/" ++ u2)),
          ("metadata", body.metadata.getD (Json.obj [])),
          ("mode", Json.str "sandbox")] }
        state := { st with demoSessions := mapUpdate st.demoSessions t (addCheckout
          { id := checkoutId, amount := amount, currency := currency,
            status := "pending", createdAt := now }) }
        calls := [] }
  else
    let token := jsOr (extractBearer req) st.prodState.apiKey
    let pbody := prodCheckoutBody body
    match backend "/v1/checkout/create" token pbody with
    | .ok data =>
      { resp := { status := 200, body := data }, state := st
        calls := [{ path := "/v1/checkout/create", token := token, body := pbody }] }
    | .err _ =>
      match backend "/api/checkout/create" none pbody with
      | .ok data2 =>
        { resp := { status := 200, body := data2 }, state := st
          calls := [{ path := "/v1/checkout/create", token := token, body := pbody },
                    { path := "/api/checkout/create", token := none, body := pbody }] }
      | .err e2 =>
        { resp := sendError e2, state := st
          calls := [{ path := "/v1/checkout/create", token := token, body := pbody },
                    { path := "/api/checkout/create", token := none, body := pbody }] }

structure WebhookBody where
  url : Option String
  events : Option (List String)

def webhookUrl (body : WebhookBody) : String := body.url.getD "https://webhook.site/demo"

def webhookEvents (body : WebhookBody) : List String :=
  body.events.getD ["checkout.confirmed", "transaction.succeeded"]

/-- `POST /webhooks/create`. -/
def postWebhooksCreate (isSandbox : Bool) (st : ServerState) (req : Request)
    (body : WebhookBody) (u : String) (now : String) (backend : Backend) : HandlerOut :=
  if isSandbox then
    match requireDemoSession st req with
    | none => unauthorized st
    | some (t, _session) =>
      let whId := "wh_demo_" ++ uuidHex u
      { resp := { status := 200, body := Json.obj [
          ("id", Json.str whId),
          ("url", Json.str (webhookUrl body)),
          ("events", Json.arr ((webhookEvents body).map Json.str)),
          ("status", Json.str "active"),
          ("created_at", Json.str now),
          ("mode", Json.str "sandbox")] }
        state := { st with demoSessions := mapUpdate st.demoSessions t (addWebhook
          { id := whId, url := webhookUrl body,
            events := webhookEvents body, createdAt := now }) }
        calls := [] }
  else
    let token := jsOr (extractBearer req) st.prodState.apiKey
    let wbody := Json.obj [
      ("url", Json.str (webhookUrl body)),
      ("events", Json.arr ((webhookEvents body).map Json.str))]
    match backend "/v1/webhooks" token wbody with
    | .ok data =>
      { resp := { status := 200, body := data }, state := st
        calls := [{ path := "/v1/webhooks", token := token, body := wbody }] }
    | .err e =>
      { resp := sendError e, state := st
        calls := [{ path := "/v1/webhooks", token := token, body := wbody }] }

def DemoCheckout.toJson (c : DemoCheckout) : Json :=
  Json.obj [("id", Json.str c.id), ("amount", Json.num c.amount),
            ("currency", Json.str c.currency), ("status", Json.str c.status),
            ("createdAt", Json.str c.createdAt)]

def DemoWebhook.toJson (w : DemoWebhook) : Json :=
  Json.obj [("id", Json.str w.id), ("url", Json.str w.url),
            ("events", Json.arr (w.events.map Json.str)),
            ("createdAt", Json.str w.createdAt)]

def notAvailableBody : Json :=
  Json.obj [("error", Json.str "Not available in production mode.")]

/-- `GET /session`. -/
def getSessionRoute (isSandbox : Bool) (st : ServerState) (req : Request) : HandlerOut :=
  if !isSandbox then
    { resp := { status := 404, body := notAvailableBody }, state := st, calls := [] }
  else
    match requireDemoSession st req with
    | none => unauthorized st
    | some (_, session) =>
      { resp := { status := 200, body := Json.obj [
          ("email", Json.str session.email),
          ("mode", Json.str "sandbox"),
          ("hasApiKey", Json.bool session.apiKey.isSome),
          ("apiKey", truncatedKey session.apiKey),
          ("checkouts", Json.arr (session.checkouts.map DemoCheckout.toJson)),
          ("webhooks", Json.arr (session.webhooks.map DemoWebhook.toJson)),
          ("createdAt", Json.str session.createdAt),
          ("warning", Json.str "Sandbox session — in-memory only, resets on server restart.")] }
        state := st, calls := [] }

def sessionSummary (s : DemoSession) : Json :=
  Json.obj [("email", Json.str s.email),
            ("hasApiKey", Json.bool s.apiKey.isSome),
            ("checkouts", Json.num (s.checkouts.length : Int)),
            ("webhooks", Json.num (s.webhooks.length : Int)),
            ("createdAt", Json.str s.createdAt)]

/-- `GET /sessions`. -/
def getSessionsRoute (isSandbox : Bool) (st : ServerState) : HandlerOut :=
  if !isSandbox then
    { resp := { status := 404, body := notAvailableBody }, state := st, calls := [] }
  else
    let list := st.demoSessions.map (fun p => sessionSummary p.2)
    { resp := { status := 200, body := Json.obj [
        ("mode", Json.str "sandbox"),
        ("total", Json.num (list.length : Int)),
        ("sessions", Json.arr list)] }
      state := st, calls := [] }

/-- "`a` is a strict prefix of `b`": a proper leading segment. -/
def strictPrefixOf (a b : String) : Prop := listPre a.data b.data = true ∧ a ≠ b

/-- Number of positions (up to the shorter length) where two strings differ:
"mutating a single byte" of an ASCII string means this count is 1 and the
lengths agree. -/
def charDiffCount (a b : String) : Nat :=
  ((a.data.zip b.data).filter (fun p => p.1 != p.2)).length

/-! ### Concrete fixtures for witnesses and counterexamples -/

/-- HMAC-SHA256 digest of payload `"pay"` under secret `"sec"`. -/
def digestCx : List Nat := hmacSha256 (strBytes "sec") (strBytes "pay")

/-- Its canonical lowercase hex rendering — the signature `sign("pay","sec")`
would produce. -/
def canonicalSigCx : String := hexEncode digestCx

/-- The canonical signature with two non-hex characters appended: malformed
hex whose decodable prefix is exactly the digest. -/
def sigMalformedCx : String := canonicalSigCx ++ "zz"

/-- The canonical signature with the single hex letter at index 2 flipped to
upper case: one byte of the signature string changed. -/
def sigFlippedCx : String := "44Ec98d61bfe18ca6612d2733a5df1921197dc6da440d367ac7de25e1b641a45"

def emptyProd : ProdState := { jwt := none, apiKey := none }

def st0 : ServerState := { demoSessions := [], prodState := emptyProd }

def req0 : Request := { authorization := none }

def cbody0 : CreateBody := { tag := none, org_id := none, env := none, scopes := none }

def chbody0 : CheckoutBody := { amount := none, currency := none, metadata := none }

def whbody0 : WebhookBody := { url := none, events := none }

/-- A backend that always fails with a bare transport error (never consulted
by the sandbox paths it is passed to). -/
def backendDown : Backend := fun _ _ _ =>
  .err { respStatus := none, respData := none, message := "connect ECONNREFUSED" }

/-- The primary issuance call rejects with a 401; the legacy issuance call
succeeds with `{key: ""}`. -/
def backendKeyEmpty : Backend := fun path _ _ =>
  if path = "/v1/api-keys/create" then
    .err { respStatus := some 401, respData := some (Json.obj [("error", Json.str "missing JWT")]),
           message := "Request failed with status code 401" }
  else .ok (Json.obj [("key", Json.str "")])

/-- The spec's scenario: primary issuance fails with a 401, legacy issuance
succeeds with `{key: "k1"}`. -/
def backendKeyK1 : Backend := fun path _ _ =>
  if path = "/v1/api-keys/create" then
    .err { respStatus := some 401, respData := some (Json.obj [("error", Json.str "missing JWT")]),
           message := "Request failed with status code 401" }
  else .ok (Json.obj [("key", Json.str "k1")])

def err401 : AxiosErr :=
  { respStatus := some 401, respData := some (Json.obj [("error", Json.str "missing JWT")]),
    message := "Request failed with status code 401" }

/-- Rotation succeeds but the body carries an empty `raw_key`. -/
def backendRawKeyEmpty : Backend := fun _ _ _ => .ok (Json.obj [("raw_key", Json.str "")])

/-- Rotation succeeds with `{raw_key: "rk_new"}`. -/
def backendRawKeyNew : Backend := fun _ _ _ => .ok (Json.obj [("raw_key", Json.str "rk_new")])

/-- Rotation fails upstream with a 403 and a JSON error body. -/
def backendRotate403 : Backend := fun _ _ _ =>
  .err { respStatus := some 403, respData := some (Json.obj [("error", Json.str "invalid key")]),
         message := "Request failed with status code 403" }

/-- A demo-shaped 40-character API key (8-char prefix plus 32 hex). -/
def k40cx : String := "pk_demo_0123456789abcdef0123456789abcdef"

def sessCx : DemoSession :=
  { token := "tok5", email := "demo@x.io", apiKey := some k40cx,
    checkouts := [], webhooks := [], createdAt := "2026-01-01T00:00:00.000Z" }

def st5 : ServerState := { demoSessions := [("tok5", sessCx)], prodState := emptyProd }

def req5 : Request := { authorization := some "Bearer tok5" }

def sessFresh : DemoSession :=
  { token := "tok8", email := "demo@x.io", apiKey := none,
    checkouts := [], webhooks := [], createdAt := "2026-01-01T00:00:00.000Z" }

def st8 : ServerState := { demoSessions := [("tok8", sessFresh)], prodState := emptyProd }

def req8 : Request := { authorization := some "Bearer tok8" }

def uuid32 : String := "0123456789abcdef0123456789abcdef"

/-! ## Helper lemmas -/

theorem be32_mem_lt {w b : Nat} (hb : b ∈ be32 w) : b < 256 := by
  simp only [be32, List.mem_cons, List.not_mem_nil, or_false] at hb
  rcases hb with h | h | h | h <;> subst h <;> exact Nat.mod_lt _ (by norm_num)

theorem sha256_mem_lt {msg : List Nat} {b : Nat} (hb : b ∈ sha256 msg) : b < 256 := by
  simp only [sha256, hashBytes, List.mem_flatten, List.mem_map] at hb
  obtain ⟨l, ⟨w, _, rfl⟩, hbl⟩ := hb
  exact be32_mem_lt hbl

theorem sha256_length (msg : List Nat) : (sha256 msg).length = 32 := by
  simp [sha256, hashBytes, be32]

theorem hexVal_hexDigitChar : ∀ n, n < 16 → hexVal (hexDigitChar n) = some n := by decide

theorem hexDecodeAux_encode (bs : List Nat) (t : List Char) (h : ∀ b ∈ bs, b < 256) :
    hexDecodeAux ((bs.map (fun b => [hexDigitChar (b / 16), hexDigitChar (b % 16)])).flatten ++ t)
      = bs ++ hexDecodeAux t := by
  induction bs with
  | nil => simp
  | cons b bs ih =>
    have hb : b < 256 := h b (List.mem_cons_self b bs)
    have h1 : hexVal (hexDigitChar (b / 16)) = some (b / 16) :=
      hexVal_hexDigitChar _ ((Nat.div_lt_iff_lt_mul (by norm_num)).mpr hb)
    have h2 : hexVal (hexDigitChar (b % 16)) = some (b % 16) :=
      hexVal_hexDigitChar _ (Nat.mod_lt _ (by norm_num))
    simp only [List.map_cons, List.flatten_cons, List.cons_append, List.append_assoc]
    rw [hexDecodeAux, h1, h2]
    simp only [Nat.div_add_mod, List.nil_append]
    rw [ih (fun x hx => h x (List.mem_cons_of_mem b hx))]

theorem hexDecode_hexEncode (bs : List Nat) (h : ∀ b ∈ bs, b < 256) :
    hexDecode (hexEncode bs) = bs := by
  have h2 := hexDecodeAux_encode bs [] h
  rw [List.append_nil, show hexDecodeAux ([] : List Char) = [] from rfl,
    List.append_nil] at h2
  exact h2

/-- `verifySignature` succeeds exactly when the claimed signature decodes
(under Node hex-decoding) to the HMAC digest of the payload under the secret. -/
theorem verify_true_iff (payload secret signature : String) :
    verifySignature payload signature secret = true ↔
      hexDecode signature = hmacSha256 (strBytes secret) (strBytes payload) := by
  have hrt : hexDecode (hexEncode (hmacSha256 (strBytes secret) (strBytes payload)))
      = hmacSha256 (strBytes secret) (strBytes payload) :=
    hexDecode_hexEncode _ (fun b hb => sha256_mem_lt hb)
  simp only [verifySignature, timingSafeEqual]
  rw [hrt]
  split
  · rename_i hne
    simp only [Bool.false_eq_true, false_iff]
    intro hd
    rw [bne_iff_ne] at hne
    exact hne (by rw [hd])
  · rename_i heq
    rw [beq_iff_eq, eq_comm]

theorem hmac_length (key msg : List Nat) :
    (hmacSha256 key msg).length = 32 :=
  sha256_length _

/-! ## C2 -/

/-- The concrete digest for secret `"sec"`, payload `"pay"` (checked once by
kernel evaluation of the full HMAC-SHA256; everything else rewrites with it). -/
theorem digestCx_eq : digestCx =
    [0x44, 0xec, 0x98, 0xd6, 0x1b, 0xfe, 0x18, 0xca, 0x66, 0x12, 0xd2, 0x73,
     0x3a, 0x5d, 0xf1, 0x92, 0x11, 0x97, 0xdc, 0x6d, 0xa4, 0x40, 0xd3, 0x67,
     0xac, 0x7d, 0xe2, 0x5e, 0x1b, 0x64, 0x1a, 0x45] := by decide

/-- C2 counterexample: `sigMalformedCx` is malformed hex (it contains the
non-hex characters `zz`), yet `verifySignature` returns true on it, because
Node hex-decoding truncates at the first invalid character instead of
failing, and the decodable prefix is exactly the digest.  The claim, as
stated, requires false here. -/
theorem c2_counterexample :
    verifySignature "pay" sigMalformedCx "sec" = true ∧
    validHexString sigMalformedCx = false := by
  constructor
  · rw [verify_true_iff]
    show hexDecode (canonicalSigCx ++ "zz") = digestCx
    simp only [canonicalSigCx]
    rw [digestCx_eq]
    decide
  · show validHexString (canonicalSigCx ++ "zz") = false
    simp only [canonicalSigCx]
    rw [digestCx_eq]
    decide

/-- C2 (amended): `verifySignature` is a total function (it never throws) and
returns false for every signature whose Node-decoded byte sequence has a
length other than the 32-byte HMAC-SHA256 digest length — in particular for
every signature of wrong decoded length and for malformed-hex signatures whose
decodable prefix is not exactly 32 bytes.  (A malformed string whose decodable
prefix coincides with the digest still verifies; see the counterexample.) -/
theorem c2_amended (payload secret signature : String)
    (h : (hexDecode signature).length ≠ 32) :
    verifySignature payload signature secret = false := by
  cases hv : verifySignature payload signature secret
  · rfl
  · exfalso
    apply h
    rw [(verify_true_iff payload secret signature).mp hv]
    exact hmac_length _ _

theorem c2_amended_witness :
    (hexDecode "zz").length ≠ 32 ∧ verifySignature "pay" "zz" "sec" = false :=
  ⟨by decide, c2_amended "pay" "sec" "zz" (by decide)⟩

/-! ## C3 -/

/-- C3 counterexample: `sigFlippedCx` differs from the canonical hex rendering
`sign("pay","sec")` in exactly one character (one byte of the ASCII signature
string changed: index 2, `e` flipped to `E`), yet verification still returns
true, because Node hex-decoding is case-insensitive.  The claim, as stated,
requires any single-byte change of the signature to make verification false. -/
theorem c3_counterexample :
    canonicalSigCx = hexEncode (hmacSha256 (strBytes "sec") (strBytes "pay")) ∧
    verifySignature "pay" sigFlippedCx "sec" = true ∧
    sigFlippedCx ≠ canonicalSigCx ∧
    sigFlippedCx.length = canonicalSigCx.length ∧
    charDiffCount sigFlippedCx canonicalSigCx = 1 := by
  refine ⟨rfl, ?_, ?_, ?_, ?_⟩
  · rw [verify_true_iff]
    show hexDecode sigFlippedCx = digestCx
    rw [digestCx_eq]
    decide
  · show sigFlippedCx ≠ hexEncode digestCx
    rw [digestCx_eq]
    decide
  · show sigFlippedCx.length = (hexEncode digestCx).length
    rw [digestCx_eq]
    decide
  · show charDiffCount sigFlippedCx (hexEncode digestCx) = 1
    rw [digestCx_eq]
    decide

/-- C3 (amended): `verifySignature(payload, hexEncode(HMAC-SHA256(secret,
payload)), secret)` is true for all payloads and secrets, and verification
succeeds exactly when the claimed signature hex-decodes to the digest.
Hence a change to the signature falsifies verification iff it alters the
decoded bytes (a hex-case flip does not — see the counterexample), and a
change to the payload or the secret falsifies it iff it changes the digest,
which for single-byte changes is a collision-resistance property of
HMAC-SHA256, not a fact the code can guarantee. -/
theorem c3_amended (payload secret : String) :
    verifySignature payload (hexEncode (hmacSha256 (strBytes secret) (strBytes payload))) secret = true ∧
    ∀ signature, verifySignature payload signature secret = true ↔
      hexDecode signature = hmacSha256 (strBytes secret) (strBytes payload) := by
  constructor
  · rw [verify_true_iff]
    exact hexDecode_hexEncode _ (fun b hb => sha256_mem_lt hb)
  · intro s
    exact verify_true_iff payload secret s

theorem c3_amended_witness :
    verifySignature "pay" (hexEncode (hmacSha256 (strBytes "sec") (strBytes "pay"))) "sec" = true :=
  (c3_amended "pay" "sec").1

/-! ## Registry lemmas -/

theorem mapGet_none_mapHas {m : List (String × DemoSession)} {k : String}
    (h : mapGet m k = none) : mapHas m k = false := by
  induction m with
  | nil => rfl
  | cons p rest ih =>
    obtain ⟨k2, v⟩ := p
    by_cases hk : k2 = k
    · simp [mapGet, hk] at h
    · simp only [mapGet, hk, if_false] at h
      simp [mapHas, hk, ih h]

theorem mapGet_append_single (m : List (String × DemoSession)) (t k : String) (s : DemoSession) :
    mapGet (m ++ [(t, s)]) k =
      (match mapGet m k with
       | some v => some v
       | none => if t = k then some s else none) := by
  induction m with
  | nil => simp [mapGet]
  | cons p rest ih =>
    obtain ⟨k2, v⟩ := p
    by_cases hk : k2 = k <;> simp [mapGet, hk, ih]

theorem mapGet_mapUpdate_self {m : List (String × DemoSession)} {t : String}
    {s : DemoSession} (f : DemoSession → DemoSession) (h : mapGet m t = some s) :
    mapGet (mapUpdate m t f) t = some (f s) := by
  induction m with
  | nil => simp [mapGet] at h
  | cons p rest ih =>
    obtain ⟨k2, v⟩ := p
    have hu : mapUpdate ((k2, v) :: rest) t f
        = (if k2 = t then (k2, f v) else (k2, v)) :: mapUpdate rest t f := rfl
    have hg : mapGet ((k2, v) :: rest) t = if k2 = t then some v else mapGet rest t := rfl
    rw [hu]
    by_cases hk : k2 = t
    · rw [if_pos hk]
      show (if k2 = t then some (f v) else mapGet (mapUpdate rest t f) t) = some (f s)
      rw [if_pos hk]
      rw [hg, if_pos hk] at h
      rw [Option.some.inj h]
    · rw [if_neg hk]
      show (if k2 = t then some v else mapGet (mapUpdate rest t f) t) = some (f s)
      rw [if_neg hk]
      rw [hg, if_neg hk] at h
      exact ih h

theorem mapGet_mapUpdate_ne {m : List (String × DemoSession)} {t k : String}
    (f : DemoSession → DemoSession) (h : k ≠ t) :
    mapGet (mapUpdate m t f) k = mapGet m k := by
  induction m with
  | nil => rfl
  | cons p rest ih =>
    obtain ⟨k2, v⟩ := p
    have hu : mapUpdate ((k2, v) :: rest) t f
        = (if k2 = t then (k2, f v) else (k2, v)) :: mapUpdate rest t f := rfl
    have hg : mapGet ((k2, v) :: rest) k = if k2 = k then some v else mapGet rest k := rfl
    rw [hu, hg]
    by_cases hk : k2 = t
    · rw [if_pos hk]
      show (if k2 = k then some (f v) else mapGet (mapUpdate rest t f) k)
          = if k2 = k then some v else mapGet rest k
      have hne : k2 ≠ k := fun hkk => h (hkk.symm.trans hk)
      rw [if_neg hne, if_neg hne, ih]
    · rw [if_neg hk]
      show (if k2 = k then some v else mapGet (mapUpdate rest t f) k)
          = if k2 = k then some v else mapGet rest k
      by_cases hk2 : k2 = k
      · rw [if_pos hk2, if_pos hk2]
      · rw [if_neg hk2, if_neg hk2, ih]

/-! ## C1 -/

/-- C1 counterexample: production issuance where the primary call fails and
the legacy call succeeds with body `{key: ""}`.  The legacy body is returned,
but the credential slot is NOT overwritten with `""` — `if (r2.data?.key)` is
JS-falsy for the empty string — contradicting the claim's "the credential
slot's apiKey equals k" for every legacy success body `{key: k}`. -/
theorem c1_counterexample :
    (postApiKeysCreate false st0 req0 cbody0 "u" backendKeyEmpty).resp.body
        = Json.obj [("key", Json.str "")] ∧
    (postApiKeysCreate false st0 req0 cbody0 "u" backendKeyEmpty).state.prodState.apiKey = none :=
  ⟨rfl, rfl⟩

/-- C1 (amended): in production mode, when the primary `/v1/api-keys/create`
call fails for any reason, the handler makes exactly one retry against the
legacy `/api/keys/create` route with no bearer attached.  If the legacy call
succeeds, its body is the response and the credential slot's apiKey is
overwritten with the body's `key` field whenever that field is a non-empty
string (JS-truthy) — an empty or missing `key` leaves the slot unchanged.
If the legacy call also fails, its error (not the primary's) is surfaced. -/
theorem c1_amended (st : ServerState) (req : Request) (body : CreateBody)
    (u : String) (backend : Backend) (e : AxiosErr)
    (hp : backend "/v1/api-keys/create" (jsOr (extractBearer req) st.prodState.jwt)
        (v1CreateBody body) = .err e) :
    (postApiKeysCreate false st req body u backend).calls =
      [{ path := "/v1/api-keys/create", token := jsOr (extractBearer req) st.prodState.jwt,
         body := v1CreateBody body },
       { path := "/api/keys/create", token := none, body := legacyCreateBody body }] ∧
    (∀ d, backend "/api/keys/create" none (legacyCreateBody body) = .ok d →
      (postApiKeysCreate false st req body u backend).resp.status = 200 ∧
      (postApiKeysCreate false st req body u backend).resp.body = d ∧
      (postApiKeysCreate false st req body u backend).state.prodState.apiKey =
        jsOr (strField d "key") st.prodState.apiKey ∧
      (postApiKeysCreate false st req body u backend).state.demoSessions = st.demoSessions) ∧
    (∀ e2, backend "/api/keys/create" none (legacyCreateBody body) = .err e2 →
      (postApiKeysCreate false st req body u backend).resp = sendError e2 ∧
      (postApiKeysCreate false st req body u backend).state = st) := by
  cases hleg : backend "/api/keys/create" none (legacyCreateBody body) with
  | ok d =>
    refine ⟨?_, ?_, ?_⟩
    · simp [postApiKeysCreate, hp, hleg]
    · intro d2 hd2
      injection hd2 with hd
      subst hd
      simp [postApiKeysCreate, hp, hleg]
    · intro e2 he2
      exact BResult.noConfusion he2
  | err e2 =>
    refine ⟨?_, ?_, ?_⟩
    · simp [postApiKeysCreate, hp, hleg]
    · intro d2 hd2
      exact BResult.noConfusion hd2
    · intro e3 he3
      injection he3 with he
      subst he
      simp [postApiKeysCreate, hp, hleg]

/-- C1 witness, in the spec's own scenario: primary fails with a 401, legacy
succeeds with `{key:"k1"}` — the final response is the legacy body and the
credential slot's apiKey equals `"k1"`. -/
theorem c1_amended_witness :
    (postApiKeysCreate false st0 req0 cbody0 "u" backendKeyK1).resp.body
        = Json.obj [("key", Json.str "k1")] ∧
    (postApiKeysCreate false st0 req0 cbody0 "u" backendKeyK1).state.prodState.apiKey = some "k1" := by
  have h := c1_amended st0 req0 cbody0 "u" backendKeyK1 err401 rfl
  have h2 := h.2.1 (Json.obj [("key", Json.str "k1")]) rfl
  exact ⟨h2.2.1, h2.2.2.1.trans rfl⟩

/-! ## C7 -/

/-- C7 counterexample: production rotation succeeds with body
`{raw_key: ""}` — a returned key — but the credential slot is NOT
overwritten (`if (r.data?.raw_key)` is JS-falsy for the empty string),
contradicting the claim's "on success the credential slot's apiKey is
overwritten with the returned key". -/
theorem c7_counterexample :
    (postApiKeysRotate false st0 req0 Json.null "u" backendRawKeyEmpty).resp.status = 200 ∧
    (postApiKeysRotate false st0 req0 Json.null "u" backendRawKeyEmpty).resp.body
        = Json.obj [("raw_key", Json.str "")] ∧
    (postApiKeysRotate false st0 req0 Json.null "u" backendRawKeyEmpty).state.prodState.apiKey = none :=
  ⟨rfl, rfl, rfl⟩

/-- C7 (amended): in production mode, `POST /api-keys/rotate` makes exactly
one backend call, to the primary rotation route, with no legacy fallback and
no retry.  On success the credential slot's apiKey is overwritten with the
returned `raw_key` whenever it is a non-empty string (JS-truthy); otherwise
the slot is unchanged.  On failure the response carries the upstream status
code when available (else 502) and the upstream's JSON error body when
present (else a synthetic error object built from the message). -/
theorem c7_amended (st : ServerState) (req : Request) (rawBody : Json)
    (u : String) (backend : Backend) :
    (postApiKeysRotate false st req rawBody u backend).calls =
      [{ path := "/v1/api-keys/rotate", token := jsOr (extractBearer req) st.prodState.apiKey,
         body := rawBody }] ∧
    (∀ d, backend "/v1/api-keys/rotate" (jsOr (extractBearer req) st.prodState.apiKey) rawBody = .ok d →
      (postApiKeysRotate false st req rawBody u backend).resp.status = 200 ∧
      (postApiKeysRotate false st req rawBody u backend).resp.body = d ∧
      (postApiKeysRotate false st req rawBody u backend).state.prodState.apiKey =
        jsOr (strField d "raw_key") st.prodState.apiKey ∧
      (postApiKeysRotate false st req rawBody u backend).state.demoSessions = st.demoSessions) ∧
    (∀ e, backend "/v1/api-keys/rotate" (jsOr (extractBearer req) st.prodState.apiKey) rawBody = .err e →
      (postApiKeysRotate false st req rawBody u backend).resp.status = e.respStatus.getD 502 ∧
      (postApiKeysRotate false st req rawBody u backend).resp.body =
        e.respData.getD (Json.obj [("error", Json.str e.message)]) ∧
      (postApiKeysRotate false st req rawBody u backend).state = st) := by
  cases hb : backend "/v1/api-keys/rotate" (jsOr (extractBearer req) st.prodState.apiKey) rawBody with
  | ok d =>
    refine ⟨?_, ?_, ?_⟩
    · simp [postApiKeysRotate, hb]
    · intro d2 hd2
      injection hd2 with hd
      subst hd
      simp [postApiKeysRotate, hb]
    · intro e he
      exact BResult.noConfusion he
  | err e =>
    refine ⟨?_, ?_, ?_⟩
    · simp [postApiKeysRotate, hb]
    · intro d2 hd2
      exact BResult.noConfusion hd2
    · intro e2 he2
      injection he2 with he
      subst he
      simp [postApiKeysRotate, hb, sendError]

/-- C7 witness: a successful rotation with `{raw_key:"rk_new"}` overwrites
the slot; a failed rotation with upstream 403 surfaces 403. -/
theorem c7_amended_witness :
    (postApiKeysRotate false st0 req0 Json.null "u" backendRawKeyNew).state.prodState.apiKey
        = some "rk_new" ∧
    (postApiKeysRotate false st0 req0 Json.null "u" backendRotate403).resp.status = 403 := by
  constructor
  · exact ((c7_amended st0 req0 Json.null "u" backendRawKeyNew).2.1 _ rfl).2.2.1.trans rfl
  · exact ((c7_amended st0 req0 Json.null "u" backendRotate403).2.2 _ rfl).1.trans rfl

/-! ## More registry/string lemmas -/

theorem listPre_take (l : List Char) (n : Nat) : listPre (l.take n) l = true := by
  induction l generalizing n with
  | nil => cases n <;> rfl
  | cons c cs ih =>
    cases n with
    | zero => rfl
    | succ n2 => simp [List.take_succ_cons, listPre, ih]

theorem requireDemoSession_mapGet {st : ServerState} {req : Request} {t : String}
    {s : DemoSession} (h : requireDemoSession st req = some (t, s)) :
    mapGet st.demoSessions t = some s := by
  unfold requireDemoSession at h
  cases hbe : extractBearer req with
  | none =>
    rw [hbe] at h
    exact Option.noConfusion h
  | some t2 =>
    rw [hbe] at h
    have h3 : (match mapGet st.demoSessions t2 with
        | none => none
        | some s2 => some (t2, s2)) = some (t, s) := h
    cases hmg : mapGet st.demoSessions t2 with
    | none =>
      rw [hmg] at h3
      exact Option.noConfusion h3
    | some s2 =>
      rw [hmg] at h3
      injection h3 with hp
      rw [Prod.mk.injEq] at hp
      obtain ⟨h1, h2⟩ := hp
      subst h1
      subst h2
      exact hmg

/-! ## C4 -/

/-- C4: in sandbox mode, `POST /auth/login` responds 400 iff the email field
is absent or empty; for every non-empty email (the password is never
consulted) it stores a brand-new session under the freshly drawn token — with
apiKey `null` and empty checkouts and webhooks — returns the token, and
leaves every other registry entry and the credential slot untouched.  The
freshness of the drawn token (`randomUUID()`) is the hypothesis `hfresh`. -/
theorem c4_login (st : ServerState) (body : LoginBody) (token now : String)
    (hfresh : mapGet st.demoSessions token = none) :
    ((postAuthLogin true st body token now).resp.status = 400 ↔
      (body.email = none ∨ body.email = some "")) ∧
    (∀ e, body.email = some e → e ≠ "" →
      (postAuthLogin true st body token now).resp.status = 200 ∧
      (postAuthLogin true st body token now).resp.body.getField "token" = some (Json.str token) ∧
      mapGet (postAuthLogin true st body token now).state.demoSessions token =
        some { token := token, email := e, apiKey := none, checkouts := [], webhooks := [],
               createdAt := now } ∧
      (∀ k, k ≠ token → mapGet (postAuthLogin true st body token now).state.demoSessions k
          = mapGet st.demoSessions k) ∧
      (postAuthLogin true st body token now).state.prodState = st.prodState) := by
  cases hbe : body.email with
  | none =>
    constructor
    · simp [postAuthLogin, hbe, strFalsy]
    · intro e he
      exact absurd he (by simp)
  | some e =>
    by_cases he : e = ""
    · subst he
      constructor
      · simp [postAuthLogin, hbe, strFalsy]
      · intro e2 he2 hne
        injection he2 with h3
        exact absurd h3.symm hne
    · have hout : postAuthLogin true st body token now =
          { resp := { status := 200, body := Json.obj [
              ("ok", Json.bool true),
              ("token", Json.str token),
              ("email", Json.str e),
              ("mode", Json.str "sandbox"),
              ("message", Json.str "Demo session created. Pass token as: Authorization: Bearer <token>"),
              ("warning", Json.str "Sandbox session only. No real authentication occurred.")] }
            state := { st with demoSessions := mapSet st.demoSessions token (newSession token e now) }
            calls := [] } := by
        simp [postAuthLogin, hbe, strFalsy, he]
      have happ : mapSet st.demoSessions token (newSession token e now)
          = st.demoSessions ++ [(token, newSession token e now)] := by
        simp [mapSet, mapGet_none_mapHas hfresh]
      constructor
      · rw [hout]
        simp [he]
      · intro e2 he2 hne
        injection he2 with h3
        subst h3
        refine ⟨by rw [hout], by rw [hout]; rfl, ?_, ?_, by rw [hout]⟩
        · rw [hout]
          show mapGet (mapSet st.demoSessions token (newSession token e now)) token = _
          rw [happ, mapGet_append_single, hfresh]
          simp [newSession]
        · intro k hk
          rw [hout]
          show mapGet (mapSet st.demoSessions token (newSession token e now)) k
              = mapGet st.demoSessions k
          rw [happ, mapGet_append_single]
          cases hmk : mapGet st.demoSessions k with
          | some v => rfl
          | none => simp [Ne.symm hk]

/-- C4 witness: a concrete login on an empty registry. -/
theorem c4_login_witness :
    (postAuthLogin true st0 { email := some "demo@x.io", password := some "hunter2" }
        "tok-1" "t0").resp.status = 200 ∧
    mapGet (postAuthLogin true st0 { email := some "demo@x.io", password := some "hunter2" }
        "tok-1" "t0").state.demoSessions "tok-1" =
      some { token := "tok-1", email := "demo@x.io", apiKey := none, checkouts := [],
             webhooks := [], createdAt := "t0" } := by
  have h := c4_login st0 { email := some "demo@x.io", password := some "hunter2" } "tok-1" "t0" rfl
  have h2 := h.2 "demo@x.io" rfl (by decide)
  exact ⟨h2.1, h2.2.2.1⟩

/-! ## C5 -/

/-- C5 counterexample: a sandbox rotation on a session holding the 40-char
demo key `k40cx`.  The response's `old_key` field is the first 15 characters
of the old key with `"..."` appended — and that string is NOT a prefix of the
old key (its 16th character is `.` where the key has `7`), contradicting the
claim that the `old_key` field is a strict prefix of the prior full key. -/
theorem c5_counterexample :
    (postApiKeysRotate true st5 req5 Json.null uuid32 backendDown).resp.body.getField "old_key"
        = some (Json.str "pk_demo_0123456...") ∧
    ¬ strictPrefixOf "pk_demo_0123456..." k40cx :=
  ⟨rfl, fun hsp => absurd hsp.1 (by decide)⟩

/-- C5 (amended): in sandbox mode, rotating a session that holds an apiKey
`k` (of the 40-character demo shape) replaces it with the freshly generated
key — different from `k` whenever the fresh draw differs — and the response's
`old_key` field is the first 15 characters of `k` followed by `"..."`: its
15-character stem is a strict prefix of `k`, and the field is never the full
key itself (18 characters versus 40). -/
theorem c5_amended (st : ServerState) (req : Request) (rawBody : Json) (u : String)
    (backend : Backend) (t : String) (session : DemoSession) (k : String)
    (hsess : requireDemoSession st req = some (t, session))
    (hkey : session.apiKey = some k)
    (hlen : k.data.length = 40)
    (hnew : "pk_demo_" ++ uuidHex u ≠ k) :
    (postApiKeysRotate true st req rawBody u backend).resp.status = 200 ∧
    (postApiKeysRotate true st req rawBody u backend).resp.body.getField "key"
        = some (Json.str ("pk_demo_" ++ uuidHex u)) ∧
    mapGet (postApiKeysRotate true st req rawBody u backend).state.demoSessions t =
      some { session with apiKey := some ("pk_demo_" ++ uuidHex u) } ∧
    some ("pk_demo_" ++ uuidHex u) ≠ some k ∧
    (postApiKeysRotate true st req rawBody u backend).resp.body.getField "old_key"
        = some (Json.str (strTake k 15 ++ "...")) ∧
    strictPrefixOf (strTake k 15) k ∧
    strTake k 15 ++ "..." ≠ k := by
  have hmg := requireDemoSession_mapGet hsess
  have hks : k ≠ "" := by
    intro hk0
    rw [hk0] at hlen
    exact absurd hlen (by decide)
  have hout : postApiKeysRotate true st req rawBody u backend =
      { resp := { status := 200, body := Json.obj [
          ("ok", Json.bool true),
          ("key", Json.str ("pk_demo_" ++ uuidHex u)),
          ("rotated", Json.bool true),
          ("old_key", Json.str (strTake k 15 ++ "...")),
          ("mode", Json.str "sandbox"),
          ("warning", Json.str "Demo key rotation. No real keys were affected.")] }
        state := { st with demoSessions := mapUpdate st.demoSessions t (setKey ("pk_demo_" ++ uuidHex u)) }
        calls := [] } := by
    simp [postApiKeysRotate, hsess, truncatedKey, hkey, hks]
  have htk : (strTake k 15).data.length = 15 := by
    simp [strTake, List.length_take, hlen]
  refine ⟨by rw [hout], by rw [hout]; rfl, ?_, ?_, by rw [hout]; rfl, ⟨?_, ?_⟩, ?_⟩
  · rw [hout]
    exact mapGet_mapUpdate_self _ hmg
  · intro hsome
    exact hnew (Option.some.inj hsome)
  · exact listPre_take k.data 15
  · intro heq
    have hlen2 : (strTake k 15).data.length = k.data.length := by rw [heq]
    rw [htk, hlen] at hlen2
    exact absurd hlen2 (by decide)
  · intro heq
    have hlen2 : (strTake k 15 ++ "...").data.length = k.data.length := by rw [heq]
    rw [String.data_append, List.length_append, htk, hlen] at hlen2
    exact absurd hlen2 (by decide)

/-- C5 witness: rotating the concrete session `sessCx` with a fresh draw of
32 `f`s. -/
theorem c5_amended_witness :
    (postApiKeysRotate true st5 req5 Json.null "ffffffffffffffffffffffffffffffff"
        backendDown).resp.body.getField "old_key"
      = some (Json.str (strTake k40cx 15 ++ "...")) ∧
    mapGet (postApiKeysRotate true st5 req5 Json.null "ffffffffffffffffffffffffffffffff"
        backendDown).state.demoSessions "tok5" =
      some { sessCx with apiKey := some ("pk_demo_" ++ uuidHex "ffffffffffffffffffffffffffffffff") } ∧
    some ("pk_demo_" ++ uuidHex "ffffffffffffffffffffffffffffffff") ≠ some k40cx := by
  have h := c5_amended st5 req5 Json.null "ffffffffffffffffffffffffffffffff" backendDown
    "tok5" sessCx k40cx rfl rfl (by decide) (by decide)
  exact ⟨h.2.2.2.2.1, h.2.2.1, h.2.2.2.1⟩

/-! ## C6 -/

/-- C6: in production mode the sandbox-only routes (`POST /auth/login`,
`GET /session`, `GET /sessions`) each return a 404 not-found outcome and the
state afterwards is exactly the state before (and no backend call is made);
in sandbox mode `POST /auth/forward` with a token responds 200 — success,
never a server error — carrying the compatibility message. -/
theorem c6_mode_routing :
    (∀ st body token now, postAuthLogin false st body token now =
      { resp := { status := 404, body := loginNotFoundBody }, state := st, calls := [] }) ∧
    (∀ st req, getSessionRoute false st req =
      { resp := { status := 404, body := notAvailableBody }, state := st, calls := [] }) ∧
    (∀ st, getSessionsRoute false st =
      { resp := { status := 404, body := notAvailableBody }, state := st, calls := [] }) ∧
    (∀ st req body t, jsOr body.jwt (extractBearer req) = some t → t ≠ "" →
      (postAuthForward true st req body).resp.status = 200 ∧
      (postAuthForward true st req body).resp.body.getField "ok" = some (Json.bool true) ∧
      (postAuthForward true st req body).resp.body.getField "message" =
        some (Json.str "JWT stored in legacy state. For the full demo flow, use POST /auth/login.")) := by
  refine ⟨fun st body token now => rfl, fun st req => rfl, fun st => rfl, ?_⟩
  intro st req body t ht hne
  have hout : postAuthForward true st req body =
      { resp := { status := 200, body := Json.obj [
          ("ok", Json.bool true),
          ("mode", Json.str "sandbox"),
          ("message", Json.str "JWT stored in legacy state. For the full demo flow, use POST /auth/login.")] }
        state := { st with prodState := { st.prodState with jwt := some t } }
        calls := [] } := by
    simp [postAuthForward, ht, strFalsy, hne]
  exact ⟨by rw [hout], by rw [hout]; rfl, by rw [hout]; rfl⟩

/-- C6 witness: concrete instances of the production 404 and the sandbox
forward. -/
theorem c6_mode_routing_witness :
    postAuthLogin false st0 { email := some "demo@x.io", password := none } "tok-2" "t0" =
      { resp := { status := 404, body := loginNotFoundBody }, state := st0, calls := [] } ∧
    (postAuthForward true st0 req0 { jwt := some "jwt-1" }).resp.status = 200 := by
  constructor
  · exact c6_mode_routing.1 st0 { email := some "demo@x.io", password := none } "tok-2" "t0"
  · exact (c6_mode_routing.2.2.2 st0 req0 { jwt := some "jwt-1" } "jwt-1" rfl (by decide)).1

/-! ## C8 -/

/-- C8: in sandbox mode, a `POST /checkout/demo` whose bearer resolves to a
session responds 200 with the requested amount (default 4900), the requested
currency lowercased (default "usd"), status "pending" and id
`cs_demo_ ++ <uuid hex>` (hex by the `randomUUID()` contract, hypothesis
`hhex`), and appends exactly one matching CheckoutRecord to the resolved
session's checkouts, leaving the rest of that session, all other sessions,
and the credential slot unchanged. -/
theorem c8_checkout (st : ServerState) (req : Request) (body : CheckoutBody)
    (u1 u2 now expiresAt : String) (backend : Backend) (t : String) (session : DemoSession)
    (hsess : requireDemoSession st req = some (t, session))
    (hhex : ∀ c ∈ (uuidHex u1).data, (hexVal c).isSome = true) :
    (postCheckoutDemo true st req body u1 u2 now expiresAt backend).resp.status = 200 ∧
    (postCheckoutDemo true st req body u1 u2 now expiresAt backend).resp.body.getField "amount"
        = some (Json.num (body.amount.getD 4900)) ∧
    (postCheckoutDemo true st req body u1 u2 now expiresAt backend).resp.body.getField "currency"
        = some (Json.str (jsToLower (body.currency.getD "usd"))) ∧
    (postCheckoutDemo true st req body u1 u2 now expiresAt backend).resp.body.getField "status"
        = some (Json.str "pending") ∧
    (postCheckoutDemo true st req body u1 u2 now expiresAt backend).resp.body.getField "id"
        = some (Json.str ("cs_demo_" ++ uuidHex u1)) ∧
    (∀ c ∈ (uuidHex u1).data, (hexVal c).isSome = true) ∧
    mapGet (postCheckoutDemo true st req body u1 u2 now expiresAt backend).state.demoSessions t =
      some { session with checkouts := session.checkouts ++
        [{ id := "cs_demo_" ++ uuidHex u1, amount := body.amount.getD 4900,
           currency := jsToLower (body.currency.getD "usd"), status := "pending",
           createdAt := now }] } ∧
    (∀ k, k ≠ t →
      mapGet (postCheckoutDemo true st req body u1 u2 now expiresAt backend).state.demoSessions k
        = mapGet st.demoSessions k) ∧
    (postCheckoutDemo true st req body u1 u2 now expiresAt backend).state.prodState
        = st.prodState ∧
    (postCheckoutDemo true st req body u1 u2 now expiresAt backend).calls = [] := by
  have hmg := requireDemoSession_mapGet hsess
  have hout : postCheckoutDemo true st req body u1 u2 now expiresAt backend =
      { resp := { status := 200, body := Json.obj [
          ("id", Json.str ("cs_demo_" ++ uuidHex u1)),
          ("object", Json.str "checkout_session"),
          ("amount", Json.num (body.amount.getD 4900)),
          ("currency", Json.str (jsToLower (body.currency.getD "usd"))),
          ("status", Json.str "pending"),
          ("created_at", Json.str now),
          ("expires_at", Json.str expiresAt),
          ("merchant", Json.str session.email),
          ("api_key", truncatedKey session.apiKey),
          ("payment_url", Json.str ("https://checkout.paynexus.demo/" ++ u2)),
          ("metadata", body.metadata.getD (Json.obj [])),
          ("mode", Json.str "sandbox")] }
        state := { st with demoSessions := mapUpdate st.demoSessions t (addCheckout
          { id := "cs_demo_" ++ uuidHex u1, amount := body.amount.getD 4900,
            currency := jsToLower (body.currency.getD "usd"), status := "pending",
            createdAt := now }) }
        calls := [] } := by
    simp [postCheckoutDemo, hsess]
  refine ⟨by rw [hout], by rw [hout]; rfl, by rw [hout]; rfl, by rw [hout]; rfl,
    by rw [hout]; rfl, hhex, ?_, ?_, by rw [hout], by rw [hout]⟩
  · rw [hout]
    exact mapGet_mapUpdate_self _ hmg
  · intro k hk
    rw [hout]
    exact mapGet_mapUpdate_ne _ hk

/-- C8 witness: a concrete checkout on the session `sessFresh` with the
default body. -/
theorem c8_checkout_witness :
    (postCheckoutDemo true st8 req8 chbody0 uuid32 "u2" "t1" "t2" backendDown).resp.body.getField "amount"
        = some (Json.num 4900) ∧
    (postCheckoutDemo true st8 req8 chbody0 uuid32 "u2" "t1" "t2" backendDown).resp.body.getField "currency"
        = some (Json.str "usd") ∧
    mapGet (postCheckoutDemo true st8 req8 chbody0 uuid32 "u2" "t1" "t2" backendDown).state.demoSessions "tok8" =
      some { sessFresh with checkouts :=
        [{ id := "cs_demo_" ++ uuidHex uuid32, amount := 4900, currency := "usd",
           status := "pending", createdAt := "t1" }] } := by
  have h := c8_checkout st8 req8 chbody0 uuid32 "u2" "t1" "t2" backendDown "tok8" sessFresh
    rfl (by decide)
  exact ⟨h.2.1, h.2.2.1, h.2.2.2.2.2.2.1⟩

/-! ## C9 -/

/-- C9: in sandbox mode every mutating handler, when the bearer token is
missing or resolves to no stored session, responds 401 with a body carrying
an `error` field and a `hint` field, and returns the state entirely unchanged
(registry and both credential fields) with no backend call. -/
theorem c9_unauthorized (st : ServerState) (req : Request)
    (h : requireDemoSession st req = none) :
    unauthorizedBody.getField "error"
        = some (Json.str "Unauthorized — no valid demo session.") ∧
    unauthorizedBody.getField "hint"
        = some (Json.str "Call POST /auth/login first, then pass the token as Authorization: Bearer <token>.") ∧
    (∀ body u backend, postApiKeysCreate true st req body u backend =
      { resp := { status := 401, body := unauthorizedBody }, state := st, calls := [] }) ∧
    (∀ rawBody u backend, postApiKeysRotate true st req rawBody u backend =
      { resp := { status := 401, body := unauthorizedBody }, state := st, calls := [] }) ∧
    (∀ body u1 u2 now expiresAt backend, postCheckoutDemo true st req body u1 u2 now expiresAt backend =
      { resp := { status := 401, body := unauthorizedBody }, state := st, calls := [] }) ∧
    (∀ body u now backend, postWebhooksCreate true st req body u now backend =
      { resp := { status := 401, body := unauthorizedBody }, state := st, calls := [] }) := by
  refine ⟨rfl, rfl, ?_, ?_, ?_, ?_⟩ <;> intros <;>
    simp [postApiKeysCreate, postApiKeysRotate, postCheckoutDemo, postWebhooksCreate,
      h, unauthorized]

/-- C9 witness: the four handlers on an empty registry with no bearer. -/
theorem c9_unauthorized_witness :
    postApiKeysCreate true st0 req0 cbody0 "u" backendDown =
      { resp := { status := 401, body := unauthorizedBody }, state := st0, calls := [] } ∧
    postApiKeysRotate true st0 req0 Json.null "u" backendDown =
      { resp := { status := 401, body := unauthorizedBody }, state := st0, calls := [] } ∧
    postCheckoutDemo true st0 req0 chbody0 "u" "u2" "t1" "t2" backendDown =
      { resp := { status := 401, body := unauthorizedBody }, state := st0, calls := [] } ∧
    postWebhooksCreate true st0 req0 whbody0 "u" "t1" backendDown =
      { resp := { status := 401, body := unauthorizedBody }, state := st0, calls := [] } := by
  have h := c9_unauthorized st0 req0 rfl
  exact ⟨h.2.2.1 cbody0 "u" backendDown, h.2.2.2.1 Json.null "u" backendDown,
    h.2.2.2.2.1 chbody0 "u" "u2" "t1" "t2" backendDown,
    h.2.2.2.2.2 whbody0 "u" "t1" backendDown⟩

/-! ## C10 -/

/-- C10: in sandbox mode, `POST /auth/forward` with a token is not a pure
no-op — it still overwrites the production credential slot's `jwt` field with
the token — while the session registry and the slot's `apiKey` field are left
unchanged. -/
theorem c10_forward_sandbox (st : ServerState) (req : Request) (body : ForwardBody)
    (t : String) (ht : jsOr body.jwt (extractBearer req) = some t) (hne : t ≠ "") :
    (postAuthForward true st req body).state.prodState.jwt = some t ∧
    (postAuthForward true st req body).state.demoSessions = st.demoSessions ∧
    (postAuthForward true st req body).state.prodState.apiKey = st.prodState.apiKey := by
  have hout : (postAuthForward true st req body).state =
      { st with prodState := { st.prodState with jwt := some t } } := by
    simp [postAuthForward, ht, strFalsy, hne]
  rw [hout]
  exact ⟨rfl, rfl, rfl⟩

/-- C10 witness. -/
theorem c10_forward_sandbox_witness :
    (postAuthForward true st0 req0 { jwt := some "jwt-1" }).state.prodState.jwt = some "jwt-1" ∧
    (postAuthForward true st0 req0 { jwt := some "jwt-1" }).state.demoSessions = [] := by
  have h := c10_forward_sandbox st0 req0 { jwt := some "jwt-1" } "jwt-1" rfl (by decide)
  exact ⟨h.1, h.2.1⟩

end Paynexus

